import Mathlib

/-!
Verification development for the YT-Title-Updater repository.

The definitions below are a shallow embedding of the Python sources:
  - `TitleManager` (src/youtube_updater/core/title_manager.py): in-memory
    title queue plus three persisted files, modelled as lists of lines.
  - `DefaultTitleGenerator` (src/youtube_updater/core/default_title_generator.py):
    a pure function of the current zoned instant, which the source reads via
    `datetime.now(tz)`; the instant is made an explicit argument here.
  - The monolithic `YouTubeUpdaterCore` (src/youtube_updater/core.py) and the
    dependency-injected `YouTubeUpdaterCore` (src/youtube_updater/core/__init__.py):
    the repository ships both update cycles and they behave differently.
  - `FileOperations.write_lines` (src/youtube_updater/utils/file_operations.py):
    modelled as its sequence of file-system steps (truncating open, then write),
    so that intermediate observable file contents can be discussed.

File contents are lists of lines; timestamps are opaque strings supplied by the
environment; external API calls are modelled by an environment record giving
their outcome for one cycle.
-/

/-- State of `TitleManager`: the in-memory queue and `next_title`, plus the
persisted contents of the titles file, the applied-titles file and the history
log, each as a list of lines. -/
structure TMState where
  titles : List String
  next_title : String
  titlesFile : List String
  appliedFile : List String
  historyLog : List String
deriving Repr, DecidableEq

/-- `TitleManager.DEFAULT_TITLE`. -/
def DEFAULT_TITLE : String := "Live Stream"

/-- `TitleManager.get_next_title`: returns `self.next_title`. -/
def get_next_title (s : TMState) : String :=
  s.next_title

/-- Python `str.strip()`: remove leading and trailing whitespace. -/
def py_strip (s : String) : String :=
  String.mk (((s.data.dropWhile Char.isWhitespace).reverse.dropWhile Char.isWhitespace).reverse)

/-- The list comprehension in `TitleManager.load_titles`:
`[line.strip() for line in f if line.strip()]` — strip every line, keep the
non-blank ones, order preserved. -/
def tm_clean_lines (lines : List String) : List String :=
  (lines.map (fun l => py_strip l)).filter (fun l => !(l == ""))

/-- `TitleManager._create_default_titles`: sets the queue to the single default
title, sets `next_title` to it, and overwrites the titles file with it. -/
def create_default_titles (s : TMState) : TMState :=
  { s with titles := [DEFAULT_TITLE], next_title := DEFAULT_TITLE,
           titlesFile := [DEFAULT_TITLE] }

/-- Outcome of reading the titles file in `TitleManager.load_titles`: the file
may be missing, unreadable (the read raises), or readable with some lines. -/
inductive ReadResult where
  | missing
  | unreadable (msg : String)
  | content (lines : List String)
deriving Repr, DecidableEq

/-- Body of `TitleManager.load_titles` on a readable file: strip lines, keep the
non-blank ones; if any remain, `next_title` becomes the first, otherwise
`_create_default_titles` runs. -/
def load_content (lines : List String) (s : TMState) : TMState :=
  let ts := tm_clean_lines lines
  if ts.isEmpty then create_default_titles { s with titles := ts }
  else { s with titles := ts, next_title := ts.headI }

/-- `TitleManager.load_titles`: a missing file triggers
`_create_default_titles`, a raised read error is re-raised as
`TitleManagerError("Error loading titles: ...")`, and readable content is
processed by `load_content`. -/
def load_titles : ReadResult → TMState → Except String TMState
  | ReadResult.missing, s => Except.ok (create_default_titles s)
  | ReadResult.unreadable msg, _ => Except.error ("Error loading titles: " ++ msg)
  | ReadResult.content lines, s => Except.ok (load_content lines s)

/-- `TitleManager.__init__`: start with an empty queue and the default
`next_title`, ensure the files exist, then `load_titles` on the (now existing)
titles file whose lines are `lines`. -/
def tm_init (lines applied hist : List String) : TMState :=
  load_content lines
    { titles := [], next_title := DEFAULT_TITLE,
      titlesFile := lines, appliedFile := applied, historyLog := hist }

/-- `TitleManager.rotate_titles`: on an empty queue run
`_create_default_titles` and return the default title; otherwise move the head
to the back (`self.titles.append(self.titles.pop(0))`), set `next_title` to the
new head, overwrite the titles file with the rotated queue, and return the old
head. -/
def rotate_titles (s : TMState) : TMState × String :=
  match s.titles with
  | [] => (create_default_titles s, DEFAULT_TITLE)
  | h :: t =>
      let ts := t ++ [h]
      ({ s with titles := ts, next_title := ts.headI, titlesFile := ts }, h)

/-- `TitleManager.archive_title`: append the bare title to the applied-titles
file, append `"<timestamp>: <title>"` to the history log, and if the title is
in the queue remove its first occurrence and overwrite the titles file with the
rest. `next_title` is not touched. -/
def archive_title (ts title : String) (s : TMState) : TMState :=
  let s1 := { s with appliedFile := s.appliedFile ++ [title],
                     historyLog := s.historyLog ++ [ts ++ ": " ++ title] }
  if title ∈ s1.titles then
    let rest := s1.titles.erase title
    { s1 with titles := rest, titlesFile := rest }
  else s1

/-- `TitleManager.add_title`: only when the title is not already in the queue,
append it to the queue and append the line to the titles file. -/
def add_title (title : String) (s : TMState) : TMState :=
  if title ∈ s.titles then s
  else { s with titles := s.titles ++ [title], titlesFile := s.titlesFile ++ [title] }

/-- States of a `TitleManager` reachable through its public operations.
Construction reads arbitrary file contents; `load` re-reads the persisted
titles file; `rotate`, `archive` and `add` are the mutating operations
(`add` restricted to non-empty titles, as every caller in the repository
passes a non-empty string). -/
inductive TMReach : TMState → Prop where
  | init (lines applied hist : List String) : TMReach (tm_init lines applied hist)
  | load {s : TMState} : TMReach s → TMReach (load_content s.titlesFile s)
  | rotate {s : TMState} : TMReach s → TMReach (rotate_titles s).1
  | archive {s : TMState} (ts title : String) :
      TMReach s → TMReach (archive_title ts title s)
  | add {s : TMState} (title : String) :
      TMReach s → title ≠ "" → TMReach (add_title title s)

/-- A zoned wall-clock instant as `DefaultTitleGenerator.generate_title` reads
it from `datetime.now(self.timezone)`: the local calendar date and local time
in the configured timezone. The source obtains it implicitly from the clock;
it is an explicit argument here. -/
structure ZonedDateTime where
  year : Int
  month : Nat
  day : Nat
  hour : Nat
  minute : Nat
deriving Repr, DecidableEq

/-- Day count since 1970-01-01 of a proleptic Gregorian civil date, the
arithmetic underlying `datetime.date.weekday`. -/
def days_from_civil (y : Int) (m d : Nat) : Int :=
  let y2 : Int := if m ≤ 2 then y - 1 else y
  let era : Int := (if 0 ≤ y2 then y2 else y2 - 399) / 400
  let yoe : Int := y2 - era * 400
  let doy : Int := (153 * (if 2 < m then (m : Int) - 3 else (m : Int) + 9) + 2) / 5 + (d : Int) - 1
  let doe : Int := yoe * 365 + yoe / 4 - yoe / 100 + doy
  era * 146097 + doe - 719468

/-- Python `datetime.weekday()`: Monday is 0 through Sunday is 6
(1970-01-01 was a Thursday, value 3). -/
def py_weekday (y : Int) (m d : Nat) : Nat :=
  ((days_from_civil y m d + 3) % 7).toNat

/-- Full weekday name as produced by `strftime("%A")` for a Python weekday
number. -/
def weekday_name : Nat → String
  | 0 => "Monday"
  | 1 => "Tuesday"
  | 2 => "Wednesday"
  | 3 => "Thursday"
  | 4 => "Friday"
  | 5 => "Saturday"
  | 6 => "Sunday"
  | _ => ""

/-- Full month name as produced by `strftime("%B")`. -/
def month_name : Nat → String
  | 1 => "January"
  | 2 => "February"
  | 3 => "March"
  | 4 => "April"
  | 5 => "May"
  | 6 => "June"
  | 7 => "July"
  | 8 => "August"
  | 9 => "September"
  | 10 => "October"
  | 11 => "November"
  | 12 => "December"
  | _ => ""

/-- Zero-padded two-digit field as produced by `strftime("%d")`. -/
def pad2 (n : Nat) : String :=
  if n < 10 then "0" ++ toString n else toString n

/-- The date part of `DefaultTitleGenerator.generate_title`:
`current_time.strftime("%A, %B %d, %Y")`. -/
def date_part (dt : ZonedDateTime) : String :=
  weekday_name (py_weekday dt.year dt.month dt.day) ++ ", " ++
    month_name dt.month ++ " " ++ pad2 dt.day ++ ", " ++ toString dt.year

/-- The `is_saturday_evening` condition of
`DefaultTitleGenerator.generate_title`: weekday is Saturday (5), hour at least
17, and hour below 23 or hour 23 with minute at most 45. -/
def is_saturday_evening (dt : ZonedDateTime) : Bool :=
  py_weekday dt.year dt.month dt.day == 5 &&
    decide (17 ≤ dt.hour) &&
    (decide (dt.hour < 23) || (dt.hour == 23 && decide (dt.minute ≤ 45)))

/-- `DefaultTitleGenerator.generate_title`: date part, then
`" - Vespers and Midnight Praises"` on a Saturday evening and
`" - Divine Liturgy"` otherwise. -/
def generate_title (dt : ZonedDateTime) : String :=
  date_part dt ++ " - " ++
    (if is_saturday_evening dt then "Vespers and Midnight Praises" else "Divine Liturgy")

/-- State of the monolithic `YouTubeUpdaterCore` (src/youtube_updater/core.py):
API-client initialisation flag, live flag, cached current (remote) title,
`next_title`, the in-memory queue, the status pair, and the three persisted
files. -/
structure MCState where
  youtubeInit : Bool
  is_live : Bool
  current_title : String
  next_title : String
  titles : List String
  status : String
  status_type : String
  titlesFile : List String
  appliedFile : List String
  historyLog : List String
deriving Repr, DecidableEq

/-- `YouTubeUpdaterCore._set_status` (the status type arguments used below are
all members of `STATUS_TYPES`, so the validation in the source passes). -/
def mc_set_status (msg ty : String) (s : MCState) : MCState :=
  { s with status := msg, status_type := ty }

/-- Environment of one monolithic `update_title` cycle: the outcome of the
live-broadcast search (video id and remote snippet title when one is found),
whether the remote title update succeeds, the exception detail when it fails,
and the wall-clock timestamp string. -/
structure MCEnv where
  searchItems : Option (String × String)
  updateOk : Bool
  errDetail : String
  ts : String

/-- `YouTubeUpdaterCore._archive_title` of the monolithic core: reads the
titles file; if the title is absent, logs a history error and reports an
error status; otherwise appends to the history log and the applied-titles
file (both timestamped), removes the first occurrence of the title from the
file, and reports success. The in-memory queue is not touched. -/
def mc_archive_title (ts title : String) (s : MCState) : MCState :=
  if title ∈ s.titlesFile then
    { s with historyLog := s.historyLog ++ [ts ++ " - Title updated: " ++ title],
             appliedFile := s.appliedFile ++ [ts ++ " - " ++ title],
             titlesFile := s.titlesFile.erase title,
             status := "Title archived: " ++ title, status_type := "success" }
  else
    { s with historyLog := s.historyLog ++ [ts ++ " - Error: Title not found: " ++ title],
             status := "Error archiving title: Title not found: " ++ title,
             status_type := "error" }

/-- `YouTubeUpdaterCore._rotate_titles` of the monolithic core: on an empty
queue do nothing; otherwise advance `next_title` to the element after its
current index, modulo the queue length. `self.titles.index` raises `ValueError`
when `next_title` is not in the queue. -/
def mc_rotate_titles (s : MCState) : Except String MCState :=
  if s.titles.isEmpty then Except.ok s
  else
    match s.titles.findIdx? (fun t => t == s.next_title) with
    | some i => Except.ok { s with next_title := s.titles.getD ((i + 1) % s.titles.length) "" }
    | none => Except.error ("'" ++ s.next_title ++ "' is not in list")

/-- `YouTubeUpdaterCore.update_title` of the monolithic core: guard on client
initialisation and liveness, search for the live broadcast, and only when the
cached `current_title` differs from `next_title` push the update; on remote
success log the change, archive, set `current_title`, rotate, and report
success; on a raised remote failure report
`"Error updating title: <detail>"` and append the error to the history log;
when the titles match, report `"Title is already up to date"`. -/
def mc_update_title (env : MCEnv) (s : MCState) : MCState :=
  if !s.youtubeInit then mc_set_status "YouTube client not initialized" "error" s
  else if !s.is_live then mc_set_status "Channel is not live" "warning" s
  else
    match env.searchItems with
    | none => mc_set_status "No live broadcast found" "error" s
    | some _ =>
      if s.current_title != s.next_title then
        if env.updateOk then
          let s1 := { s with historyLog := s.historyLog ++
            [env.ts ++ " - Changed title from \"" ++ s.current_title ++ "\" to \"" ++ s.next_title ++ "\""] }
          let s2 := mc_archive_title env.ts s.next_title s1
          let s3 := { s2 with current_title := s.next_title }
          match mc_rotate_titles s3 with
          | Except.ok s4 => mc_set_status ("Title updated to: " ++ s4.next_title) "success" s4
          | Except.error d =>
            { s3 with status := "Error updating title: " ++ d, status_type := "error",
                      historyLog := s3.historyLog ++ [env.ts ++ " - Error updating title: " ++ d] }
        else
          { s with status := "Error updating title: " ++ env.errDetail, status_type := "error",
                   historyLog := s.historyLog ++ [env.ts ++ " - Error updating title: " ++ env.errDetail] }
      else mc_set_status "Title is already up to date" "info" s

/-- State of the dependency-injected `YouTubeUpdaterCore`
(src/youtube_updater/core/__init__.py): the owned `TitleManager` state, the
cached current title, the live flag, and the `StatusManager` pair. -/
structure DIState where
  tm : TMState
  current_title : String
  is_live : Bool
  status : String
  status_type : String
deriving Repr, DecidableEq

/-- Environment of one DI-core `update_title` cycle: whether a YouTube client
was injected, the live-stream info returned by the client (live flag, video id,
remote title), whether `update_video_title` succeeds, the exception detail when
it fails, and the timestamp. -/
structure DIEnv where
  hasClient : Bool
  streamLive : Bool
  videoId : String
  remoteTitle : String
  updateOk : Bool
  errDetail : String
  ts : String

/-- `StatusManager.set_status` reached through the DI core (the severity
arguments used below are all members of `STATUS_TYPES`). -/
def di_set_status (msg ty : String) (s : DIState) : DIState :=
  { s with status := msg, status_type := ty }

/-- `YouTubeUpdaterCore.update_title` of the DI core: guard on client presence
and the two liveness checks, take `new_title` from
`title_manager.get_next_title()` (warn when it is empty), push the update with
no comparison against the remote title; on success archive the title through
the `TitleManager` and set `current_title`; a raised failure is reported as
`"Error updating title: <detail>"` with no state change. -/
def di_update_title (env : DIEnv) (s : DIState) : DIState :=
  if !env.hasClient then di_set_status "YouTube client not initialized" "error" s
  else if !s.is_live then di_set_status "Channel is not live" "warning" s
  else if !env.streamLive then di_set_status "Channel is no longer live" "warning" s
  else
    let new_title := get_next_title s.tm
    if new_title == "" then di_set_status "No titles available to update." "warning" s
    else if env.updateOk then
      { s with tm := archive_title env.ts new_title s.tm,
               current_title := new_title,
               status := "Title updated to: " ++ new_title, status_type := "success" }
    else di_set_status ("Error updating title: " ++ env.errDetail) "error" s

/-- One file-system step of `FileOperations.write_lines`: `open(path, "w")`
truncates the file, then `f.write(data)` appends the data to the (now empty)
file. -/
inductive WriteStep where
  | openTruncate
  | writeData (data : String)
deriving Repr, DecidableEq

/-- The step sequence performed by `FileOperations.write_lines`: a truncating
open followed by one write of `"\n".join(lines)`. -/
def write_lines_steps (lines : List String) : List WriteStep :=
  [WriteStep.openTruncate, WriteStep.writeData (String.intercalate "\n" lines)]

/-- Effect of one write step on the file content. -/
def apply_write_step (content : String) : WriteStep → String
  | WriteStep.openTruncate => ""
  | WriteStep.writeData d => content ++ d

/-- Every file content observable by a concurrent or crashed-in-between reader
while a step sequence runs against a file holding `old`: the content before
the first step and after each step. -/
def observable_contents (old : String) (steps : List WriteStep) : List String :=
  steps.scanl apply_write_step old

theorem tm_headI_mem {l : List String} (h : l ≠ []) : l.headI ∈ l := by
  cases l with
  | nil => exact absurd rfl h
  | cons a as => simp [List.headI]

theorem tm_clean_lines_mem_ne {lines : List String} {t : String}
    (h : t ∈ tm_clean_lines lines) : t ≠ "" := by
  simp only [tm_clean_lines, List.mem_filter, Bool.not_eq_true', beq_eq_false_iff_ne,
    ne_eq] at h
  exact h.2

/-- The well-formedness facts every reachable `TitleManager` state keeps:
`next_title` is non-empty and so is every queued title. -/
def tm_titles_ok (s : TMState) : Prop :=
  s.next_title ≠ "" ∧ ∀ t ∈ s.titles, t ≠ ""

theorem create_default_titles_ok (s : TMState) : tm_titles_ok (create_default_titles s) := by
  constructor
  · intro h
    simp [create_default_titles, DEFAULT_TITLE] at h
  · intro t ht
    simp only [create_default_titles] at ht
    simp only [List.mem_singleton] at ht
    subst ht
    intro h
    simp [DEFAULT_TITLE] at h

theorem load_content_ok (lines : List String) (s : TMState) :
    tm_titles_ok (load_content lines s) := by
  unfold load_content
  rcases hcl : tm_clean_lines lines with _ | ⟨h, t⟩
  · simpa [hcl] using create_default_titles_ok { s with titles := [] }
  · refine ⟨?_, ?_⟩
    · simp only [hcl, List.isEmpty_cons, if_false, Bool.false_eq_true, List.headI]
      exact tm_clean_lines_mem_ne (hcl ▸ List.mem_cons_self h t)
    · intro x hx
      simp only [hcl, List.isEmpty_cons, if_false, Bool.false_eq_true] at hx
      exact tm_clean_lines_mem_ne (hcl ▸ hx)

theorem rotate_titles_ok {s : TMState} (hs : tm_titles_ok s) :
    tm_titles_ok (rotate_titles s).1 := by
  rcases hq : s.titles with _ | ⟨h, t⟩
  · simpa [rotate_titles, hq] using create_default_titles_ok s
  · have hmem : ∀ x ∈ t ++ [h], x ≠ "" := by
      intro x hx
      rcases List.mem_append.mp hx with hx | hx
      · exact hs.2 x (hq ▸ List.mem_cons_of_mem h hx)
      · rcases List.mem_singleton.mp hx with rfl
        exact hs.2 x (hq ▸ List.mem_cons_self x t)
    refine ⟨?_, ?_⟩
    · have hne : t ++ [h] ≠ [] := by simp
      simp only [rotate_titles, hq]
      exact hmem _ (tm_headI_mem hne)
    · intro x hx
      simp only [rotate_titles, hq] at hx
      exact hmem x hx

theorem archive_title_ok {s : TMState} (ts title : String) (hs : tm_titles_ok s) :
    tm_titles_ok (archive_title ts title s) := by
  unfold archive_title
  by_cases hmem : title ∈ s.titles <;>
    simp only [hmem, if_true, if_false, reduceIte]
  · exact ⟨hs.1, fun t ht => hs.2 t (List.mem_of_mem_erase ht)⟩
  · exact ⟨hs.1, hs.2⟩

theorem add_title_ok {s : TMState} {title : String} (hs : tm_titles_ok s)
    (ht : title ≠ "") : tm_titles_ok (add_title title s) := by
  unfold add_title
  by_cases hmem : title ∈ s.titles <;>
    simp only [hmem, if_true, if_false, reduceIte]
  · exact hs
  · refine ⟨hs.1, ?_⟩
    intro x hx
    rcases List.mem_append.mp hx with hx | hx
    · exact hs.2 x hx
    · rcases List.mem_singleton.mp hx with rfl
      exact ht

theorem tm_reach_ok {s : TMState} (h : TMReach s) : tm_titles_ok s := by
  induction h with
  | init lines applied hist => exact load_content_ok lines _
  | load _ _ => exact load_content_ok _ _
  | rotate _ ih => exact rotate_titles_ok ih
  | archive ts title _ ih => exact archive_title_ok ts title ih
  | add title _ hne ih => exact add_title_ok ih hne

/-- Claim C1, counterexample: on the queue `["A", "B"]`, a successful
consumption through `TitleManager.rotate_titles` does not remove the head —
it recycles it: the resulting queue and persisted titles file are
`["B", "A"]`, which still contains the consumed title `"A"` and is not the
claimed shortened queue `["B"]`. -/
theorem rotate_titles_recycles_head_cex :
    (rotate_titles ⟨["A", "B"], "A", ["A", "B"], [], []⟩).1.titles = ["B", "A"] ∧
    (rotate_titles ⟨["A", "B"], "A", ["A", "B"], [], []⟩).1.titlesFile ≠ ["B"] ∧
    "A" ∈ (rotate_titles ⟨["A", "B"], "A", ["A", "B"], [], []⟩).1.titles := by
  decide

/-- Claim C1, amended: on every non-empty queue, `TitleManager.rotate_titles`
moves the head to the back (queue length preserved, remaining order
preserved), persists the rotated queue to the titles file, sets `next_title`
to the new head, and returns the consumed old head; the consumed title is
recycled to the back rather than removed. -/
theorem rotate_titles_moves_head_to_back (s : TMState) (h : String)
    (t : List String) (hq : s.titles = h :: t) :
    rotate_titles s =
      ({ s with titles := t ++ [h], next_title := (t ++ [h]).headI,
                titlesFile := t ++ [h] }, h) := by
  simp [rotate_titles, hq]

/-- Witness for `rotate_titles_moves_head_to_back` at the queue
`["A", "B"]`. -/
theorem rotate_titles_moves_head_to_back_witness :
    rotate_titles ⟨["A", "B"], "A", ["A", "B"], [], []⟩ =
      (⟨["B", "A"], "B", ["B", "A"], [], []⟩, "A") := by
  have h := rotate_titles_moves_head_to_back ⟨["A", "B"], "A", ["A", "B"], [], []⟩
    "A" ["B"] rfl
  simpa using h

/-- Claim C9, counterexample: with the queue `["A"]`,
`TitleManager.add_title "A"` is a silent no-op — no second entry is appended
to the queue or to the titles file, refuting "duplicates allowed". -/
theorem add_title_duplicate_noop_cex :
    add_title "A" ⟨["A"], "A", ["A"], [], []⟩ = ⟨["A"], "A", ["A"], [], []⟩ ∧
    (add_title "A" ⟨["A"], "A", ["A"], [], []⟩).titles.length = 1 := by
  decide

/-- Claim C9, amended: `TitleManager.add_title` appends the title to the end
of the queue and appends it to the persisted titles file only when the title
is not already present; adding a duplicate changes nothing. -/
theorem add_title_appends_when_absent (s : TMState) (title : String)
    (h : title ∉ s.titles) :
    add_title title s =
      { s with titles := s.titles ++ [title],
               titlesFile := s.titlesFile ++ [title] } := by
  simp [add_title, h]

/-- Witness for `add_title_appends_when_absent`: adding `"B"` to the queue
`["A"]`. -/
theorem add_title_appends_when_absent_witness :
    add_title "B" ⟨["A"], "A", ["A"], [], []⟩ = ⟨["A", "B"], "A", ["A", "B"], [], []⟩ := by
  have h := add_title_appends_when_absent ⟨["A"], "A", ["A"], [], []⟩ "B" (by decide)
  simpa using h

/-- Claim C10, counterexample: starting from a titles file `["A", "B"]`,
`archive_title "A"` leaves `next_title = "A"` while the non-empty queue is
`["B"]` — `next_title` no longer equals the queue head, refuting the claimed
invariant for states reachable through the public operations. -/
theorem archive_title_breaks_head_equality_cex :
    (archive_title "2024-01-01 00:00:00" "A" (tm_init ["A", "B"] [] [])).titles = ["B"] ∧
    (archive_title "2024-01-01 00:00:00" "A" (tm_init ["A", "B"] [] [])).next_title = "A" ∧
    ("A" : String) ≠ "B" := by
  decide

/-- Claim C10, amended: in every `TitleManager` state reachable through the
public operations with non-empty `add_title` arguments, `get_next_title`
returns a non-empty string (so never `None` or `""`); the head-equality part
of the original claim fails because `archive_title` does not update
`next_title`. -/
theorem reachable_get_next_title_nonempty {s : TMState} (h : TMReach s) :
    get_next_title s ≠ "" :=
  (tm_reach_ok h).1

/-- Witness for `reachable_get_next_title_nonempty` at the constructed state
with titles file `["A"]`. -/
theorem reachable_get_next_title_nonempty_witness :
    get_next_title (tm_init ["A"] [] []) ≠ "" :=
  reachable_get_next_title_nonempty (TMReach.init ["A"] [] [])

theorem suffix_ne (p : String) :
    p ++ "Divine Liturgy" ≠ p ++ "Vespers and Midnight Praises" := by
  intro h
  have hlen := congrArg String.length h
  rw [String.length_append, String.length_append] at hlen
  have h1 : "Divine Liturgy".length = 14 := rfl
  have h2 : "Vespers and Midnight Praises".length = 28 := rfl
  rw [h1, h2] at hlen
  omega

theorem is_saturday_evening_iff (dt : ZonedDateTime) (hh : dt.hour ≤ 23) :
    is_saturday_evening dt = true ↔
      (py_weekday dt.year dt.month dt.day = 5 ∧ 17 ≤ dt.hour ∧
        (dt.hour = 23 → dt.minute ≤ 45)) := by
  unfold is_saturday_evening
  simp only [Bool.and_eq_true, Bool.or_eq_true, beq_iff_eq, decide_eq_true_eq]
  constructor
  · rintro ⟨⟨hw, h17⟩, hor⟩
    refine ⟨hw, h17, fun h23 => ?_⟩
    rcases hor with hlt | ⟨_, hm⟩
    · omega
    · exact hm
  · rintro ⟨hw, h17, himp⟩
    refine ⟨⟨hw, h17⟩, ?_⟩
    by_cases h23 : dt.hour = 23
    · exact Or.inr ⟨h23, himp h23⟩
    · exact Or.inl (by omega)

/-- Claim C5: for every instant with a valid hour, `generate_title` returns
the formatted date followed by `" - Vespers and Midnight Praises"` exactly
when the weekday is Saturday (Python weekday 5) and the local time satisfies
hour at least 17 and, at hour 23, minute at most 45; every other instant
yields `" - Divine Liturgy"`. -/
theorem generate_title_saturday_evening_iff (dt : ZonedDateTime)
    (hh : dt.hour ≤ 23) :
    (generate_title dt = date_part dt ++ " - " ++ "Vespers and Midnight Praises" ↔
       (py_weekday dt.year dt.month dt.day = 5 ∧ 17 ≤ dt.hour ∧
         (dt.hour = 23 → dt.minute ≤ 45))) ∧
    (generate_title dt = date_part dt ++ " - " ++ "Divine Liturgy" ↔
       ¬(py_weekday dt.year dt.month dt.day = 5 ∧ 17 ≤ dt.hour ∧
         (dt.hour = 23 → dt.minute ≤ 45))) := by
  have hiff := is_saturday_evening_iff dt hh
  cases hb : is_saturday_evening dt with
  | true =>
      have hcond := hiff.mp hb
      have hgen : generate_title dt = date_part dt ++ " - " ++ "Vespers and Midnight Praises" := by
        simp [generate_title, hb]
      refine ⟨⟨fun _ => hcond, fun _ => hgen⟩, ⟨?_, fun hnc => absurd hcond hnc⟩⟩
      intro hdl
      exact absurd (hdl.symm.trans hgen) (suffix_ne (date_part dt ++ " - "))
  | false =>
      have hcond : ¬(py_weekday dt.year dt.month dt.day = 5 ∧ 17 ≤ dt.hour ∧
          (dt.hour = 23 → dt.minute ≤ 45)) := by
        intro hc
        rw [hiff.mpr hc] at hb
        exact Bool.noConfusion hb
      have hgen : generate_title dt = date_part dt ++ " - " ++ "Divine Liturgy" := by
        simp [generate_title, hb]
      refine ⟨⟨?_, fun hc => absurd hc hcond⟩, ⟨fun _ => hcond, fun _ => hgen⟩⟩
      intro hv
      exact absurd (hgen.symm.trans hv) (suffix_ne (date_part dt ++ " - "))

/-- Witness for `generate_title_saturday_evening_iff` at Saturday
2024-03-23 18:00. -/
theorem generate_title_saturday_evening_iff_witness :
    generate_title ⟨2024, 3, 23, 18, 0⟩ =
      date_part ⟨2024, 3, 23, 18, 0⟩ ++ " - " ++ "Vespers and Midnight Praises" :=
  (generate_title_saturday_evening_iff ⟨2024, 3, 23, 18, 0⟩ (by decide)).1.mpr
    ⟨by decide, by decide, fun h => absurd h (by decide)⟩

/-- Claim C6: `generate_title` is a deterministic function of the zoned
instant (two calls on the identical instant give the identical string and no
state exists to mutate), and on any Saturday the two instants 16:59 and 17:00,
one minute apart across the 17:00 boundary, yield different titles. -/
theorem generate_title_pure_and_boundary (y : Int) (m d : Nat)
    (hsat : py_weekday y m d = 5) :
    generate_title ⟨y, m, d, 16, 59⟩ = generate_title ⟨y, m, d, 16, 59⟩ ∧
    generate_title ⟨y, m, d, 16, 59⟩ ≠ generate_title ⟨y, m, d, 17, 0⟩ := by
  refine ⟨rfl, ?_⟩
  have h1 : is_saturday_evening ⟨y, m, d, 16, 59⟩ = false := by
    simp [is_saturday_evening]
  have h2 : is_saturday_evening ⟨y, m, d, 17, 0⟩ = true := by
    simp [is_saturday_evening, hsat]
  intro heq
  rw [generate_title, generate_title, h1, h2] at heq
  simp only [if_false, if_true, Bool.false_eq_true, reduceIte] at heq
  exact suffix_ne (date_part ⟨y, m, d, 16, 59⟩ ++ " - ") heq

/-- Witness for `generate_title_pure_and_boundary` on Saturday 2024-03-23. -/
theorem generate_title_pure_and_boundary_witness :
    generate_title ⟨2024, 3, 23, 16, 59⟩ = generate_title ⟨2024, 3, 23, 16, 59⟩ ∧
    generate_title ⟨2024, 3, 23, 16, 59⟩ ≠ generate_title ⟨2024, 3, 23, 17, 0⟩ :=
  generate_title_pure_and_boundary 2024 3 23 (by decide)

/-- Claim C7, counterexample: loading a missing titles file does not return an
empty queue — `_create_default_titles` installs and persists the queue
`["Live Stream"]`. -/
theorem load_titles_missing_cex :
    load_titles ReadResult.missing ⟨[], "x", [], [], []⟩ =
      Except.ok ⟨["Live Stream"], "Live Stream", ["Live Stream"], [], []⟩ ∧
    (["Live Stream"] : List String) ≠ [] :=
  ⟨rfl, by decide⟩

/-- Claim C7, amended: on a readable titles file with at least one non-blank
line, `load_titles` returns one queue entry per non-blank stripped line with
file order preserved (the queue is a sublist of the stripped lines) and
`next_title` set to the first entry; a missing (or entirely blank) file makes
`load_titles` install and persist the default queue `["Live Stream"]` rather
than an empty queue; an unreadable file makes `TitleManager.load_titles`
raise `TitleManagerError` instead of degrading. -/
theorem load_titles_spec (lines : List String) (s : TMState)
    (hne : tm_clean_lines lines ≠ []) :
    load_titles (ReadResult.content lines) s =
      Except.ok { s with titles := tm_clean_lines lines,
                         next_title := (tm_clean_lines lines).headI } ∧
    (tm_clean_lines lines).Sublist (lines.map (fun l => py_strip l)) ∧
    load_titles ReadResult.missing s = Except.ok (create_default_titles s) ∧
    (∀ msg, load_titles (ReadResult.unreadable msg) s =
      Except.error ("Error loading titles: " ++ msg)) := by
  refine ⟨?_, List.filter_sublist _, rfl, fun msg => rfl⟩
  rcases hcl : tm_clean_lines lines with _ | ⟨a, as⟩
  · exact absurd hcl hne
  · simp [load_titles, load_content, hcl]

/-- Witness for `load_titles_spec` on the file
`["Title 1", "", "  Title 2  "]`. -/
theorem load_titles_spec_witness :
    load_titles (ReadResult.content ["Title 1", "", "  Title 2  "]) ⟨[], "x", [], [], []⟩ =
      Except.ok ⟨["Title 1", "Title 2"], "Title 1", [], [], []⟩ := by
  have h := load_titles_spec ["Title 1", "", "  Title 2  "] ⟨[], "x", [], [], []⟩ (by decide)
  rw [h.1]
  rfl

/-- Claim C8, amended: `FileOperations.write_lines` produces as final content
exactly the titles joined one per line in queue order, but the write is not
atomic: it truncates the file in place and then writes, so the intermediate
(empty) content is observable between the two steps — there is no
write-to-temp-then-rename. -/
theorem write_lines_trace_spec (old : String) (lines : List String) :
    observable_contents old (write_lines_steps lines) =
      [old, "", String.intercalate "\n" lines] := by
  simp [observable_contents, write_lines_steps, apply_write_step, List.scanl]

/-- Claim C8, counterexample: overwriting a titles file holding `"A"` with the
queue `["B"]` exposes the observable intermediate content `""`, which is
neither the old nor the new file content — a load running between the
truncating open and the write observes a partially-written titles file. -/
theorem write_lines_not_atomic_cex :
    "" ∈ observable_contents "A" (write_lines_steps ["B"]) ∧
    ("" : String) ≠ "A" ∧ ("" : String) ≠ "B" := by
  decide

/-- Claim C2, counterexample: in the DI core, with the remote title `"A"`
equal to `next_title` (and equal to the cached `current_title`), one
`update_title` cycle still consumes the queue entry and appends an archive
record — the DI `update_title` makes no comparison with the remote title. -/
theorem di_update_title_consumes_in_sync_cex :
    get_next_title (⟨⟨["A"], "A", ["A"], [], []⟩, "A", true, "st", "info"⟩ : DIState).tm = "A" ∧
    (⟨true, true, "v", "A", true, "", "t"⟩ : DIEnv).remoteTitle = "A" ∧
    (di_update_title ⟨true, true, "v", "A", true, "", "t"⟩
        ⟨⟨["A"], "A", ["A"], [], []⟩, "A", true, "st", "info"⟩).tm.appliedFile = ["A"] ∧
    (di_update_title ⟨true, true, "v", "A", true, "", "t"⟩
        ⟨⟨["A"], "A", ["A"], [], []⟩, "A", true, "st", "info"⟩).tm.titles = [] := by
  decide

/-- Claim C2, amended: in the monolithic core, whenever the cached remote
title `current_title` equals `next_title` (with the client initialised, the
channel live, and a broadcast found), `update_title` consumes no queue entry
and appends nothing to any file — only the status changes, to
`("Title is already up to date", info)` — and running it again returns the
identical state, so any number of repetitions is safe; the DI core lacks
this guard entirely. -/
theorem mc_update_title_noop (env : MCEnv) (s : MCState) (p : String × String)
    (hy : s.youtubeInit = true) (hl : s.is_live = true)
    (hs : env.searchItems = some p) (heq : s.current_title = s.next_title) :
    mc_update_title env s =
      { s with status := "Title is already up to date", status_type := "info" } ∧
    mc_update_title env (mc_update_title env s) =
      { s with status := "Title is already up to date", status_type := "info" } := by
  have h1 : mc_update_title env s =
      { s with status := "Title is already up to date", status_type := "info" } := by
    simp [mc_update_title, hy, hl, hs, mc_set_status, heq]
  refine ⟨h1, ?_⟩
  rw [h1]
  simp [mc_update_title, hy, hl, hs, mc_set_status, heq]

/-- Witness for `mc_update_title_noop` on an in-sync state with queue
`["A"]`. -/
theorem mc_update_title_noop_witness :
    mc_update_title ⟨some ("v", "A"), true, "", "t"⟩
        ⟨true, true, "A", "A", ["A"], "st", "info", ["A"], [], []⟩ =
      ⟨true, true, "A", "A", ["A"], "Title is already up to date", "info", ["A"], [], []⟩ := by
  have h := mc_update_title_noop ⟨some ("v", "A"), true, "", "t"⟩
    ⟨true, true, "A", "A", ["A"], "st", "info", ["A"], [], []⟩ ("v", "A") rfl rfl rfl rfl
  exact h.1

/-- Claim C3, counterexample: in the monolithic core, a failing remote update
does not leave the history log exactly as it was — the except-branch appends
one timestamped `"Error updating title: <detail>"` record to it. -/
theorem mc_update_title_failure_appends_history_cex :
    (mc_update_title ⟨some ("v", "Old"), false, "boom", "t"⟩
        ⟨true, true, "Old", "A", ["A"], "st", "info", ["A"], [], []⟩).historyLog =
      ["t - Error updating title: boom"] ∧
    (mc_update_title ⟨some ("v", "Old"), false, "boom", "t"⟩
        ⟨true, true, "Old", "A", ["A"], "st", "info", ["A"], [], []⟩).status_type = "error" ∧
    ([] : List String) ≠ ["t - Error updating title: boom"] := by
  decide

/-- Claim C3, amended: in the DI core, a cycle in which the external
`update_video_title` call raises ends with the queue, the titles file, the
applied-titles file, and the history log exactly as they were, and the status
set to severity error with message `"Error updating title: <detail>"`; the
monolithic core preserves the queue and the titles and applied-titles files
the same way but additionally appends one error record to the history log. -/
theorem di_update_title_failure_preserves (env : DIEnv) (s : DIState)
    (hc : env.hasClient = true) (hl : s.is_live = true)
    (hsl : env.streamLive = true) (hnt : get_next_title s.tm ≠ "")
    (hf : env.updateOk = false) :
    di_update_title env s =
      { s with status := "Error updating title: " ++ env.errDetail,
               status_type := "error" } := by
  have hb : (get_next_title s.tm == "") = false := by
    simpa using hnt
  simp [di_update_title, hc, hl, hsl, hb, hf, di_set_status]

/-- Witness for `di_update_title_failure_preserves` on a failing update with
detail `"boom"`. -/
theorem di_update_title_failure_preserves_witness :
    di_update_title ⟨true, true, "v", "R", false, "boom", "t"⟩
        ⟨⟨["A"], "A", ["A"], [], []⟩, "R", true, "st", "info"⟩ =
      ⟨⟨["A"], "A", ["A"], [], []⟩, "R", true, "Error updating title: boom", "error"⟩ := by
  have h := di_update_title_failure_preserves ⟨true, true, "v", "R", false, "boom", "t"⟩
    ⟨⟨["A"], "A", ["A"], [], []⟩, "R", true, "st", "info"⟩ rfl rfl rfl (by decide) rfl
  exact h

/-- Claim C4, counterexample: constructing a `TitleManager` over an empty
titles file persists the fallback title into the titles file — the persisted
queue becomes `["Live Stream"]`, which is exactly the value `get_next_title`
then returns, refuting "the generated fallback title returned by
get_next_title is never written into the persisted titles queue". -/
theorem fallback_persisted_cex :
    (tm_init [] [] []).titlesFile = ["Live Stream"] ∧
    get_next_title (tm_init [] [] []) = "Live Stream" ∧
    (tm_init [] [] []).titlesFile ≠ [] := by
  decide

/-- Claim C4, amended: when the queue is empty, the fallback title
`"Live Stream"` is written into the persisted titles file at load time; a
subsequent successful apply-and-consume cycle then removes it again
(a removal does occur), leaving the titles file empty and the applied-titles
file extended by the fallback entry. -/
theorem empty_queue_fallback_roundtrip (applied hist : List String)
    (ts vid remote d st sty cur : String) :
    (tm_init [] applied hist).titlesFile = ["Live Stream"] ∧
    get_next_title (tm_init [] applied hist) = "Live Stream" ∧
    (di_update_title ⟨true, true, vid, remote, true, d, ts⟩
        ⟨tm_init [] applied hist, cur, true, st, sty⟩).tm.titlesFile = [] ∧
    (di_update_title ⟨true, true, vid, remote, true, d, ts⟩
        ⟨tm_init [] applied hist, cur, true, st, sty⟩).tm.titles = [] ∧
    (di_update_title ⟨true, true, vid, remote, true, d, ts⟩
        ⟨tm_init [] applied hist, cur, true, st, sty⟩).tm.appliedFile =
      applied ++ ["Live Stream"] := by
  have h0 : tm_init [] applied hist =
      ⟨["Live Stream"], "Live Stream", ["Live Stream"], applied, hist⟩ := rfl
  refine ⟨by rw [h0], by rw [h0]; rfl, ?_, ?_, ?_⟩ <;>
    simp [h0, di_update_title, get_next_title, archive_title, di_set_status,
      List.erase, DEFAULT_TITLE]
